import Mathlib

/-!
# Verification of the predictor-agent governance core

Shallow embedding of the three core components of the repository:

* `GovernanceEngine` (src/governance_bridge.py): the rule battery that turns a
  predictor signal plus the engine's running financial state into one
  `GovernanceResult`.
* `AdaptiveRiskStabilizer` (src/stabilizer.py): regime detection and position
  sizing.
* `SignalGenerator.aggregate_signals` (src/signals.py): the consensus
  aggregator.

Python floats are modelled as exact rationals (`ℚ`); Python `int(x)` on a
float is truncation toward zero (`ratTrunc`).  Wall-clock reads
(`datetime.utcnow()`) are passed in explicitly as a `Clock` value.  String
constants used purely as tags (rule ids, rule types) are modelled as
inductive enumerations; strings that flow through data (entry quality,
market slugs, directions) stay `String`.  Fields of the Python records that
no rule reads and no claim mentions (human-readable `reason` strings,
per-rule `details` dictionaries, UUIDs, wall-clock latency) are omitted:
they are derived from the same data that is modelled, or are pure I/O noise.
-/

/-- Python `int(x)` on a float: truncation toward zero. -/
def ratTrunc (q : ℚ) : ℤ := if 0 ≤ q then ⌊q⌋ else ⌈q⌉

namespace Governance

/-- The `rule_id` tags of the eleven rules of `GovernanceEngine`
(src/governance_bridge.py), one constructor per string constant. -/
inductive RuleId where
  | kill_switch
  | drawdown_monitor
  | consecutive_losses
  | entry_quality_filter
  | ars_score_minimum
  | conviction_minimum
  | per_trade_limit
  | daily_spend_limit
  | weekly_spend_limit
  | sufficient_balance
  | trading_hours
  deriving DecidableEq, Repr

/-- The `rule_type` tags used by the rule battery. -/
inductive RuleType where
  | KILL_SWITCH
  | SIGNAL_FILTER
  | PER_TRANSACTION_LIMIT
  | DAILY_LIMIT
  | WEEKLY_LIMIT
  | TIME_WINDOW
  | BALANCE_CHECK
  deriving DecidableEq, Repr

/-- `GovernanceDecision` enum of src/governance_bridge.py. -/
inductive GovernanceDecision where
  | APPROVED
  | BLOCKED
  | REQUIRES_APPROVAL
  | KILL_SWITCHED
  deriving DecidableEq, Repr

/-- `RuleEvaluation` (src/governance_bridge.py): one rule's verdict.  The
`reason` string and `details` dict are formatted from `rule_id`/`passed` and
the numbers already present in the state, so they are not modelled. -/
structure RuleEvaluation where
  rule_id : RuleId
  rule_type : RuleType
  passed : Bool
  deriving DecidableEq, Repr

/-- One recorded transaction of `SpendTracker.record_trade`. -/
structure Txn where
  timestamp : ℚ
  amount_cents : ℤ
  pnl : ℚ
  deriving DecidableEq, Repr

/-- `SpendTracker` (src/governance_bridge.py): the engine's financial state. -/
structure SpendTracker where
  transactions : List Txn
  peak_balance : ℚ
  current_balance : ℚ
  total_pnl : ℚ
  consecutive_losses : ℕ
  deriving DecidableEq, Repr

/-- `SpendTracker.record_trade`: append the transaction, debit the balance,
update the P&L, the consecutive-loss counter and the peak balance. -/
def SpendTracker.record_trade (sp : SpendTracker) (now : ℚ)
    (amount_cents : ℤ) (pnl : ℚ) : SpendTracker :=
  let balance := sp.current_balance - (amount_cents : ℚ) / 100
  { transactions := sp.transactions ++ [⟨now, amount_cents, pnl⟩]
    current_balance := balance
    total_pnl := sp.total_pnl + pnl
    consecutive_losses := if pnl < 0 then sp.consecutive_losses + 1 else 0
    peak_balance := if balance > sp.peak_balance then balance else sp.peak_balance }

/-- `SpendTracker.get_spend_since`: sum of transaction amounts at or after
`since`. -/
def SpendTracker.get_spend_since (sp : SpendTracker) (since : ℚ) : ℤ :=
  ((sp.transactions.filter (fun t => since ≤ t.timestamp)).map
    (fun t => t.amount_cents)).sum

/-- `SpendTracker.get_daily_spend` at wall-clock time `now` (time measured
in days, so one day before `now` is `now - 1`). -/
def SpendTracker.get_daily_spend (sp : SpendTracker) (now : ℚ) : ℤ :=
  sp.get_spend_since (now - 1)

/-- `SpendTracker.get_weekly_spend` at wall-clock time `now`. -/
def SpendTracker.get_weekly_spend (sp : SpendTracker) (now : ℚ) : ℤ :=
  sp.get_spend_since (now - 7)

/-- `SpendTracker.get_drawdown`: fractional decline from peak balance,
`0` when the peak is not positive. -/
def SpendTracker.get_drawdown (sp : SpendTracker) : ℚ :=
  if sp.peak_balance ≤ 0 then 0
  else (sp.peak_balance - sp.current_balance) / sp.peak_balance

/-- Governance configuration: the fields of `_default_config` that the rule
battery and order derivation read. -/
structure Config where
  initial_balance : ℚ
  max_per_trade_cents : ℤ
  max_daily_spend_cents : ℤ
  max_weekly_spend_cents : ℤ
  max_position_contracts : ℤ
  min_ars_score : ℚ
  min_conviction : ℚ
  allowed_signal_strengths : List String
  drawdown_kill_switch_pct : ℚ
  consecutive_loss_limit : ℕ
  trading_hours_start : ℤ
  trading_hours_end : ℤ
  deriving DecidableEq, Repr

/-- `_default_config` of src/governance_bridge.py. -/
def defaultConfig : Config :=
  { initial_balance := 500
    max_per_trade_cents := 2000
    max_daily_spend_cents := 5000
    max_weekly_spend_cents := 15000
    max_position_contracts := 50
    min_ars_score := 3/10
    min_conviction := 5/100
    allowed_signal_strengths := ["good", "fair"]
    drawdown_kill_switch_pct := 20/100
    consecutive_loss_limit := 5
    trading_hours_start := 6
    trading_hours_end := 23 }

/-- `PredictorSignal` (src/governance_bridge.py), restricted to the fields
the engine reads. -/
structure PredictorSignal where
  signal_id : String
  market_slug : String
  direction : String
  conviction : ℚ
  current_price : ℚ
  entry_quality : String
  ars_score : ℚ
  recommended_size : ℚ
  deriving DecidableEq, Repr

/-- The wall-clock values `evaluate_signal` reads: the current time (in days,
for the rolling spend windows) and the current UTC hour. -/
structure Clock where
  time : ℚ
  hour : ℤ
  deriving DecidableEq, Repr

/-- `GovernanceEngine` mutable state (src/governance_bridge.py).  The
`audit_log` is write-only (no rule reads it) and is not modelled. -/
structure EngineState where
  config : Config
  spend_tracker : SpendTracker
  kill_switch_active : Bool
  total_signals_processed : ℕ
  total_blocked : ℕ
  total_approved : ℕ
  deriving DecidableEq, Repr

/-- `GovernanceEngine.__init__`: fresh state with the configured initial
balance as both current and peak balance. -/
def EngineState.init (config : Config) : EngineState :=
  { config := config
    spend_tracker :=
      { transactions := []
        peak_balance := config.initial_balance
        current_balance := config.initial_balance
        total_pnl := 0
        consecutive_losses := 0 }
    kill_switch_active := false
    total_signals_processed := 0
    total_blocked := 0
    total_approved := 0 }

/-- The order request derived from a signal by `evaluate_signal`. -/
structure OrderRequest where
  ticker : String
  side : String
  count : ℤ
  price_cents : ℤ
  total_cost_cents : ℤ
  signal_id : String
  deriving DecidableEq, Repr

/-- `GovernanceResult` (src/governance_bridge.py), restricted to the modelled
fields (`evaluation_id`, `timestamp`, `latency_ms` are I/O noise; the echoed
`signal` and the `wallet_state` snapshot are projections of the inputs).
`execution_result` is modelled by the recorded cost in cents. -/
structure GovernanceResult where
  decision : GovernanceDecision
  rules_evaluated : List RuleEvaluation
  order_request : Option OrderRequest
  execution_result : Option ℤ
  deriving DecidableEq, Repr

/-- `_check_kill_switch`: fails iff the kill switch is active. -/
def check_kill_switch (active : Bool) : RuleEvaluation :=
  ⟨.kill_switch, .KILL_SWITCH, !active⟩

/-- `_check_drawdown`: fails when drawdown reaches the threshold, and as a
side effect latches the kill switch when it newly fails.  Returns the
evaluation together with the updated kill-switch flag. -/
def check_drawdown (cfg : Config) (sp : SpendTracker) (active : Bool) :
    RuleEvaluation × Bool :=
  let dd := sp.get_drawdown
  let passed : Bool := decide (dd < cfg.drawdown_kill_switch_pct)
  let active' := if ¬passed ∧ ¬active then true else active
  (⟨.drawdown_monitor, .KILL_SWITCH, passed⟩, active')

/-- `_check_consecutive_losses`. -/
def check_consecutive_losses (cfg : Config) (sp : SpendTracker) : RuleEvaluation :=
  ⟨.consecutive_losses, .KILL_SWITCH, decide (sp.consecutive_losses < cfg.consecutive_loss_limit)⟩

/-- `_check_entry_quality`: allow-list membership. -/
def check_entry_quality (cfg : Config) (sig : PredictorSignal) : RuleEvaluation :=
  ⟨.entry_quality_filter, .SIGNAL_FILTER,
    decide (sig.entry_quality ∈ cfg.allowed_signal_strengths)⟩

/-- `_check_ars_score`. -/
def check_ars_score (cfg : Config) (sig : PredictorSignal) : RuleEvaluation :=
  ⟨.ars_score_minimum, .SIGNAL_FILTER, decide (cfg.min_ars_score ≤ sig.ars_score)⟩

/-- `_check_conviction`. -/
def check_conviction (cfg : Config) (sig : PredictorSignal) : RuleEvaluation :=
  ⟨.conviction_minimum, .SIGNAL_FILTER, decide (cfg.min_conviction ≤ sig.conviction)⟩

/-- `_check_per_trade_limit`. -/
def check_per_trade_limit (cfg : Config) (cost_cents : ℤ) : RuleEvaluation :=
  ⟨.per_trade_limit, .PER_TRANSACTION_LIMIT, decide (cost_cents ≤ cfg.max_per_trade_cents)⟩

/-- `_check_daily_limit`: current rolling daily spend plus this trade. -/
def check_daily_limit (cfg : Config) (sp : SpendTracker) (now : ℚ)
    (cost_cents : ℤ) : RuleEvaluation :=
  ⟨.daily_spend_limit, .DAILY_LIMIT,
    decide (sp.get_daily_spend now + cost_cents ≤ cfg.max_daily_spend_cents)⟩

/-- `_check_weekly_limit`. -/
def check_weekly_limit (cfg : Config) (sp : SpendTracker) (now : ℚ)
    (cost_cents : ℤ) : RuleEvaluation :=
  ⟨.weekly_spend_limit, .WEEKLY_LIMIT,
    decide (sp.get_weekly_spend now + cost_cents ≤ cfg.max_weekly_spend_cents)⟩

/-- `_check_balance`: cost against the truncated cent balance. -/
def check_balance (sp : SpendTracker) (cost_cents : ℤ) : RuleEvaluation :=
  ⟨.sufficient_balance, .BALANCE_CHECK,
    decide (cost_cents ≤ ratTrunc (sp.current_balance * 100))⟩

/-- `_check_trading_hours`: current hour within `[start, end)`. -/
def check_trading_hours (cfg : Config) (hour : ℤ) : RuleEvaluation :=
  ⟨.trading_hours, .TIME_WINDOW,
    decide (cfg.trading_hours_start ≤ hour ∧ hour < cfg.trading_hours_end)⟩

/-- Whether some KILL_SWITCH-typed evaluation in the list failed. -/
def anyKillSwitchFailed (evals : List RuleEvaluation) : Bool :=
  evals.any (fun e => e.rule_type = RuleType.KILL_SWITCH ∧ ¬e.passed)

/-- Whether some evaluation in the list failed. -/
def anyFailed (evals : List RuleEvaluation) : Bool :=
  evals.any (fun e => ¬e.passed)

/-- The decision rule of `evaluate_signal`: kill_switched if a KILL_SWITCH
rule failed, else blocked if any rule failed, else approved. -/
def decideDecision (evals : List RuleEvaluation) : GovernanceDecision :=
  if anyKillSwitchFailed evals then .KILL_SWITCHED
  else if anyFailed evals then .BLOCKED
  else .APPROVED

/-- The order-parameter derivation of `evaluate_signal`
(src/governance_bridge.py, lines 363-380): price in cents is the truncated
`current_price * 100`, the contract count is the affordable count at the
price floored at one cent, clamped to `[1, max_position_contracts]`, and
the total cost is their product. -/
def derive_order (cfg : Config) (sp : SpendTracker) (sig : PredictorSignal) :
    OrderRequest :=
  let price_cents : ℤ := ratTrunc (sig.current_price * 100)
  let contracts : ℤ :=
    max 1 (min
      (ratTrunc (sig.recommended_size * sp.current_balance /
        max sig.current_price (1/100)))
      cfg.max_position_contracts)
  { ticker := sig.market_slug
    side := sig.direction
    count := contracts
    price_cents := price_cents
    total_cost_cents := price_cents * contracts
    signal_id := sig.signal_id }

/-- `GovernanceEngine.evaluate_signal` (src/governance_bridge.py, lines
353-444): derive the order parameters, run the eleven rules in their fixed
order (the drawdown check may latch the kill switch as a side effect),
compute the decision and the stats, and return the updated engine state
together with the `GovernanceResult`. -/
def evaluate_signal (s : EngineState) (sig : PredictorSignal) (clk : Clock) :
    EngineState × GovernanceResult :=
  let order_request := derive_order s.config s.spend_tracker sig
  let total_cost_cents := order_request.total_cost_cents
  let ev1 := check_kill_switch s.kill_switch_active
  let dd := check_drawdown s.config s.spend_tracker s.kill_switch_active
  let ev2 := dd.1
  let ks' := dd.2
  let ev3 := check_consecutive_losses s.config s.spend_tracker
  let ev4 := check_entry_quality s.config sig
  let ev5 := check_ars_score s.config sig
  let ev6 := check_conviction s.config sig
  let ev7 := check_per_trade_limit s.config total_cost_cents
  let ev8 := check_daily_limit s.config s.spend_tracker clk.time total_cost_cents
  let ev9 := check_weekly_limit s.config s.spend_tracker clk.time total_cost_cents
  let ev10 := check_balance s.spend_tracker total_cost_cents
  let ev11 := check_trading_hours s.config clk.hour
  let evals := [ev1, ev2, ev3, ev4, ev5, ev6, ev7, ev8, ev9, ev10, ev11]
  let decision := decideDecision evals
  let result : GovernanceResult :=
    { decision := decision
      rules_evaluated := evals
      order_request := if decision = .APPROVED then some order_request else none
      execution_result := none }
  ({ s with
      kill_switch_active := ks'
      total_signals_processed := s.total_signals_processed + 1
      total_approved :=
        if decision = .APPROVED then s.total_approved + 1 else s.total_approved
      total_blocked :=
        if decision = .APPROVED then s.total_blocked else s.total_blocked + 1 },
    result)

/-- `GovernanceEngine.execute_approved_trade`: a non-approved result is
returned unchanged (no state change, no error); an approved result has its
order cost recorded against the spend tracker and its execution result
filled in. -/
def execute_approved_trade (s : EngineState) (r : GovernanceResult)
    (now : ℚ) : EngineState × GovernanceResult :=
  if r.decision ≠ .APPROVED then (s, r)
  else
    let cost := (r.order_request.map (fun o => o.total_cost_cents)).getD 0
    ({ s with spend_tracker := s.spend_tracker.record_trade now cost 0 },
     { r with execution_result := some cost })

/-- `GovernanceEngine.activate_kill_switch`. -/
def activate_kill_switch (s : EngineState) : EngineState :=
  { s with kill_switch_active := true }

/-- `GovernanceEngine.reset_kill_switch`. -/
def reset_kill_switch (s : EngineState) : EngineState :=
  { s with kill_switch_active := false }

end Governance

namespace Stabilizer

/-- `MarketRegime` enum of src/stabilizer.py. -/
inductive MarketRegime where
  | CALM
  | VOLATILE
  | TRENDING
  | CHOPPY
  deriving DecidableEq, Repr

/-- `ARSConfig` (src/stabilizer.py), restricted to the fields read by
regime detection, outlier filtering and position sizing.  The
`regime_position_adjustments` dict is modelled as a total function on
`MarketRegime` (the source's `.get(regime, 1.0)` can never miss, since the
dict is keyed by every regime). -/
structure ARSConfig where
  outlier_std_threshold : ℚ
  min_sample_size : ℕ
  base_position_size : ℚ
  max_position_size : ℚ
  min_position_size : ℚ
  conviction_scaling : ℚ
  max_daily_drawdown : ℚ
  max_total_drawdown : ℚ
  drawdown_reduction_rate : ℚ
  volatility_lookback_periods : ℕ
  high_volatility_threshold : ℚ
  regime_position_adjustments : MarketRegime → ℚ

/-- The default `ARSConfig`. -/
def defaultARSConfig : ARSConfig :=
  { outlier_std_threshold := 2
    min_sample_size := 5
    base_position_size := 5/100
    max_position_size := 15/100
    min_position_size := 1/100
    conviction_scaling := 2
    max_daily_drawdown := 10/100
    max_total_drawdown := 25/100
    drawdown_reduction_rate := 1/2
    volatility_lookback_periods := 20
    high_volatility_threshold := 3/10
    regime_position_adjustments := fun r =>
      match r with
      | .CALM => 1
      | .VOLATILE => 1/2
      | .TRENDING => 12/10
      | .CHOPPY => 3/10 }

/-- Arithmetic mean of a list of rationals (`np.mean`); `0` on the empty
list (where numpy would produce NaN). -/
def mean (l : List ℚ) : ℚ := l.sum / l.length

/-- Population variance of a list of rationals, i.e. `np.std(l) ^ 2`.
The source compares `np.std(returns) > threshold`; since the standard
deviation is the nonnegative square root of this variance, that comparison
is reproduced exactly as `threshold < 0 ∨ threshold ^ 2 < variance`. -/
def variance (l : List ℚ) : ℚ :=
  mean (l.map (fun x => (x - mean l) ^ 2))

/-- Simple returns of a price series: `np.diff(prices) / prices[:-1]`. -/
def returnsOf (prices : List ℚ) : List ℚ :=
  List.zipWith (fun a b => (b - a) / a) prices prices.tail

/-- `np.sign` on a rational.  -/
def sign (q : ℚ) : ℤ := if 0 < q then 1 else if q < 0 then -1 else 0

/-- Number of adjacent sign changes in a list of returns:
`np.sum(np.diff(np.sign(returns)) != 0)`. -/
def directionChanges (returns : List ℚ) : ℕ :=
  ((List.zipWith (fun a b => sign b - sign a) returns returns.tail).filter
    (fun d => d ≠ 0)).length

/-- The truncation `prices[-volatility_lookback_periods:]` applied by
`detect_market_regime`. -/
def windowOf (cfg : ARSConfig) (prices : List ℚ) : List ℚ :=
  prices.drop (prices.length - cfg.volatility_lookback_periods)

/-- `np.std(returns) > high_volatility_threshold`, expressed through the
variance: a nonnegative square root exceeds `t` iff `t < 0` or `t ^ 2` is
below the radicand. -/
def volatileCond (cfg : ARSConfig) (returns : List ℚ) : Prop :=
  cfg.high_volatility_threshold < 0 ∨
    cfg.high_volatility_threshold ^ 2 < variance returns

instance (cfg : ARSConfig) (returns : List ℚ) :
    Decidable (volatileCond cfg returns) := by
  unfold volatileCond; infer_instance

/-- Trend magnitude `abs((prices[-1] - prices[0]) / prices[0])` of a window. -/
def trendStrengthOf (window : List ℚ) : ℚ :=
  |(window.getLastD 0 - window.headD 0) / window.headD 0|

/-- Choppiness: fraction of adjacent sign changes among the returns. -/
def choppinessOf (returns : List ℚ) : ℚ :=
  (directionChanges returns : ℚ) / returns.length

/-- `AdaptiveRiskStabilizer.detect_market_regime` (src/stabilizer.py, lines
183-223): series shorter than `volatility_lookback_periods` are CALM;
otherwise the last `volatility_lookback_periods` prices are classified by
volatility, trend strength and choppiness.  `np.std(returns) > threshold`
is expressed through the variance (see `volatileCond`). -/
def detect_market_regime (cfg : ARSConfig) (prices : List ℚ) : MarketRegime :=
  if prices.length < cfg.volatility_lookback_periods then .CALM
  else
    let returns := returnsOf (windowOf cfg prices)
    if volatileCond cfg returns then .VOLATILE
    else if trendStrengthOf (windowOf cfg prices) > 1/10 ∧
        choppinessOf returns < 3/10 then .TRENDING
    else if choppinessOf returns > 3/5 then .CHOPPY
    else .CALM

/-- `AdaptiveRiskStabilizer.calculate_position_size` (src/stabilizer.py,
lines 258-298).  `current_drawdown` is the instance state read by the
drawdown adjustment; everything else is pure in the inputs. -/
def calculate_position_size (cfg : ARSConfig) (current_drawdown : ℚ)
    (conviction : ℚ) (regime : MarketRegime) (current_exposure : ℚ) : ℚ :=
  let base := cfg.base_position_size
  let conviction_adjusted := base * (1 + (conviction - 1/2) * cfg.conviction_scaling)
  let regime_factor := cfg.regime_position_adjustments regime
  let regime_adjusted := conviction_adjusted * regime_factor
  let drawdown_factor :=
    if current_drawdown > cfg.max_daily_drawdown / 2 then
      max (1 - current_drawdown / cfg.max_total_drawdown) cfg.drawdown_reduction_rate
    else 1
  let remaining_capacity := 1 - current_exposure
  let final_size := regime_adjusted * drawdown_factor
  let final_size := min final_size (min remaining_capacity cfg.max_position_size)
  max final_size cfg.min_position_size

end Stabilizer

namespace Signals

/-- `Position` (src/polymarket.py) as read by `aggregate_signals`. -/
structure Position where
  market_slug : String
  market_title : String
  outcome : String
  size : ℚ
  avg_price : ℚ
  current_price : ℚ
  current_value : ℚ
  deriving DecidableEq, Repr

/-- `Signal` (src/signals.py), restricted to the fields `aggregate_signals`
fills (the ARS fields are filled later by `apply_ars_scoring`).  `traders`
holds the contributing wallets. -/
structure Signal where
  market_slug : String
  market_title : String
  direction : String
  conviction : ℚ
  num_traders : ℕ
  total_size : ℚ
  avg_entry_price : ℚ
  current_price : ℚ
  expected_edge : ℚ
  traders : List String
  deriving DecidableEq, Repr

/-- One grouped holding: the `(market_slug, outcome)` key, the wallet it
came from and the position itself. -/
structure Holding where
  key : String × String
  wallet : String
  position : Position
  deriving DecidableEq, Repr

/-- The grouping pass of `aggregate_signals`: walk the positions mapping in
order, skip wallets that have no trader score, and tag every remaining
position with its `(market_slug, outcome)` key. -/
def holdingsOf (positions : List (String × List Position))
    (scored : List String) : List Holding :=
  positions.flatMap (fun wp =>
    if wp.1 ∈ scored then
      wp.2.map (fun p => ⟨(p.market_slug, p.outcome), wp.1, p⟩)
    else [])

/-- The body of the per-group loop of `aggregate_signals`: drop groups below
`min_traders` or below `min_conviction`, otherwise build the consensus
signal.  `total_traders` is `len(self.positions)`. -/
def signalOfGroup (total_traders : ℕ) (min_traders : ℕ) (min_conviction : ℚ)
    (key : String × String) (holdings : List Holding) : Option Signal :=
  match holdings with
  | [] => none
  | h0 :: _ =>
  let num_traders := holdings.length
  if num_traders < min_traders then none
  else
    let conviction : ℚ := (num_traders : ℚ) / (total_traders : ℚ)
    if conviction < min_conviction then none
    else
      let total_size := (holdings.map (fun h => h.position.current_value)).sum
      let total_shares := (holdings.map (fun h => h.position.size)).sum
      let avg_entry :=
        if total_shares > 0 then
          (holdings.map (fun h => h.position.avg_price * h.position.size)).sum
            / total_shares
        else 0
      let current_price := h0.position.current_price
      let expected_edge :=
        if avg_entry > 0 then (current_price - avg_entry) / avg_entry else 0
      some
        { market_slug := key.1
          market_title := h0.position.market_title
          direction := key.2
          conviction := conviction
          num_traders := num_traders
          total_size := total_size
          avg_entry_price := avg_entry
          current_price := current_price
          expected_edge := expected_edge
          traders := holdings.map (fun h => h.wallet) }

/-- Ascending Python tuple order on `(conviction, total_size)` keys. -/
def keyLe (a b : Signal) : Bool :=
  decide (a.conviction < b.conviction ∨
    (a.conviction = b.conviction ∧ a.total_size ≤ b.total_size))

/-- First-occurrence deduplication of the group keys, matching the
insertion order of a Python dict's keys. -/
def dedupKeys (l : List (String × String)) : List (String × String) :=
  l.foldl (fun acc k => if k ∈ acc then acc else acc ++ [k]) []

/-- `SignalGenerator.aggregate_signals` (src/signals.py, lines 224-298):
group the eligible positions by `(market_slug, outcome)` (keys in first-
insertion order, as a Python dict), emit one signal per group passing the
`min_traders` and `min_conviction` filters, and sort by `(conviction,
total_size)` descending (stable). -/
def aggregate_signals (positions : List (String × List Position))
    (scored : List String) (min_traders : ℕ) (min_conviction : ℚ) :
    List Signal :=
  let holdings := holdingsOf positions scored
  let keys := dedupKeys (holdings.map (fun h => h.key))
  let total_traders := positions.length
  let signals := keys.filterMap (fun k =>
    signalOfGroup total_traders min_traders min_conviction k
      (holdings.filter (fun h => h.key = k)))
  (signals.mergeSort (fun a b => keyLe b a))

end Signals

namespace Governance

/-! ## Helper lemmas about `evaluate_signal` -/

/-- The rule battery produced by one `evaluate_signal` call, by unfolding. -/
lemma evaluate_signal_rules (s : EngineState) (sig : PredictorSignal) (clk : Clock) :
    (evaluate_signal s sig clk).2.rules_evaluated =
      [check_kill_switch s.kill_switch_active,
       (check_drawdown s.config s.spend_tracker s.kill_switch_active).1,
       check_consecutive_losses s.config s.spend_tracker,
       check_entry_quality s.config sig,
       check_ars_score s.config sig,
       check_conviction s.config sig,
       check_per_trade_limit s.config
         (derive_order s.config s.spend_tracker sig).total_cost_cents,
       check_daily_limit s.config s.spend_tracker clk.time
         (derive_order s.config s.spend_tracker sig).total_cost_cents,
       check_weekly_limit s.config s.spend_tracker clk.time
         (derive_order s.config s.spend_tracker sig).total_cost_cents,
       check_balance s.spend_tracker
         (derive_order s.config s.spend_tracker sig).total_cost_cents,
       check_trading_hours s.config clk.hour] := rfl

/-- The decision is computed by `decideDecision` from the produced rules. -/
lemma evaluate_signal_decision (s : EngineState) (sig : PredictorSignal) (clk : Clock) :
    (evaluate_signal s sig clk).2.decision =
      decideDecision (evaluate_signal s sig clk).2.rules_evaluated := rfl

/-- The order request is attached exactly when the decision is approved. -/
lemma evaluate_signal_order (s : EngineState) (sig : PredictorSignal) (clk : Clock) :
    (evaluate_signal s sig clk).2.order_request =
      (if (evaluate_signal s sig clk).2.decision = .APPROVED
        then some (derive_order s.config s.spend_tracker sig) else none) := rfl

/-- `evaluate_signal` leaves the configuration and the financial state
untouched; only the kill-switch flag (through the drawdown check) and the
statistics counters move. -/
lemma evaluate_signal_state (s : EngineState) (sig : PredictorSignal) (clk : Clock) :
    (evaluate_signal s sig clk).1.config = s.config ∧
    (evaluate_signal s sig clk).1.spend_tracker = s.spend_tracker ∧
    (evaluate_signal s sig clk).1.kill_switch_active =
      (check_drawdown s.config s.spend_tracker s.kill_switch_active).2 :=
  ⟨rfl, rfl, rfl⟩

lemma decideDecision_killSwitched_iff (evals : List RuleEvaluation) :
    decideDecision evals = .KILL_SWITCHED ↔ anyKillSwitchFailed evals = true := by
  unfold decideDecision
  by_cases h : anyKillSwitchFailed evals = true
  · simp [h]
  · simp only [Bool.not_eq_true] at h
    by_cases h' : anyFailed evals = true <;> simp [h, h']

lemma decideDecision_blocked_iff (evals : List RuleEvaluation) :
    decideDecision evals = .BLOCKED ↔
      (anyKillSwitchFailed evals = false ∧ anyFailed evals = true) := by
  unfold decideDecision
  by_cases h : anyKillSwitchFailed evals = true
  · simp [h]
  · simp only [Bool.not_eq_true] at h
    by_cases h' : anyFailed evals = true <;> simp [h, h']

lemma decideDecision_approved_iff (evals : List RuleEvaluation) :
    decideDecision evals = .APPROVED ↔
      (anyKillSwitchFailed evals = false ∧ anyFailed evals = false) := by
  unfold decideDecision
  by_cases h : anyKillSwitchFailed evals = true
  · simp [h]
  · simp only [Bool.not_eq_true] at h
    by_cases h' : anyFailed evals = true <;> simp [h, h']

/-! ## C1 -/

/-- C1: every `evaluate_signal` call returns exactly one result carrying
exactly eleven rule evaluations, one per rule of the fixed battery in the
specified order (kill-switch, drawdown, consecutive-loss, entry-quality,
ARS score minimum, conviction minimum, per-trade cap, daily cap, weekly
cap, sufficient balance, trading hours), regardless of the decision. -/
theorem evaluate_signal_eleven_rules (s : EngineState) (sig : PredictorSignal)
    (clk : Clock) :
    ((evaluate_signal s sig clk).2.rules_evaluated).map RuleEvaluation.rule_id =
      [RuleId.kill_switch, RuleId.drawdown_monitor, RuleId.consecutive_losses,
       RuleId.entry_quality_filter, RuleId.ars_score_minimum,
       RuleId.conviction_minimum, RuleId.per_trade_limit,
       RuleId.daily_spend_limit, RuleId.weekly_spend_limit,
       RuleId.sufficient_balance, RuleId.trading_hours] ∧
    ((evaluate_signal s sig clk).2.rules_evaluated).length = 11 := ⟨rfl, rfl⟩

/-! ## C2 -/

/-- C2: the decision is kill_switched iff some KILL_SWITCH-typed rule
failed, blocked iff no KILL_SWITCH rule failed but some rule failed,
approved iff every rule passed; and the order request is present iff the
decision is approved. -/
theorem evaluate_signal_decision_rule (s : EngineState) (sig : PredictorSignal)
    (clk : Clock) :
    ((evaluate_signal s sig clk).2.decision = .KILL_SWITCHED ↔
      anyKillSwitchFailed (evaluate_signal s sig clk).2.rules_evaluated = true) ∧
    ((evaluate_signal s sig clk).2.decision = .BLOCKED ↔
      (anyKillSwitchFailed (evaluate_signal s sig clk).2.rules_evaluated = false ∧
       anyFailed (evaluate_signal s sig clk).2.rules_evaluated = true)) ∧
    ((evaluate_signal s sig clk).2.decision = .APPROVED ↔
      (anyKillSwitchFailed (evaluate_signal s sig clk).2.rules_evaluated = false ∧
       anyFailed (evaluate_signal s sig clk).2.rules_evaluated = false)) ∧
    ((evaluate_signal s sig clk).2.order_request.isSome ↔
      (evaluate_signal s sig clk).2.decision = .APPROVED) := by
  refine ⟨?_, ?_, ?_, ?_⟩
  · rw [evaluate_signal_decision]; exact decideDecision_killSwitched_iff _
  · rw [evaluate_signal_decision]; exact decideDecision_blocked_iff _
  · rw [evaluate_signal_decision]; exact decideDecision_approved_iff _
  · rw [evaluate_signal_order]
    by_cases h : (evaluate_signal s sig clk).2.decision = .APPROVED <;> simp [h]

/-! ## C8 -/

/-- C8 (amended): recording execution for a result whose decision is not
approved is silently ignored, not rejected with an error: the call returns
the result unchanged and leaves the engine state — balance, spend ledger
and consecutive-loss counter included — unchanged. -/
theorem execute_non_approved_noop (s : EngineState) (r : GovernanceResult)
    (now : ℚ) (h : r.decision ≠ .APPROVED) :
    execute_approved_trade s r now = (s, r) := by
  simp [execute_approved_trade, h]

/-- C8 witness: a concrete blocked result is passed through unchanged. -/
theorem execute_non_approved_noop_witness :
    GovernanceDecision.BLOCKED ≠ GovernanceDecision.APPROVED ∧
    execute_approved_trade (EngineState.init defaultConfig)
      { decision := .BLOCKED, rules_evaluated := [], order_request := none,
        execution_result := none } 0 =
      (EngineState.init defaultConfig,
       { decision := .BLOCKED, rules_evaluated := [], order_request := none,
         execution_result := none }) :=
  ⟨by simp, execute_non_approved_noop _ _ 0 (by simp)⟩

/-! ## C3, C7, C10 -/

/-- Engine state with a 25% drawdown (peak 100, balance 75) against the
default 20% kill-switch threshold, kill switch not yet latched. -/
def exDrawdownState : EngineState :=
  { config := defaultConfig
    spend_tracker :=
      { transactions := []
        peak_balance := 100
        current_balance := 75
        total_pnl := 0
        consecutive_losses := 0 }
    kill_switch_active := false
    total_signals_processed := 0
    total_blocked := 0
    total_approved := 0 }

/-- A signal that passes every signal-quality rule of the default config. -/
def exGoodSignal : PredictorSignal :=
  { signal_id := "sig_001"
    market_slug := "KXBTC-26FEB-B100K"
    direction := "yes"
    conviction := 35/100
    current_price := 58/100
    entry_quality := "good"
    ars_score := 72/100
    recommended_size := 4/100 }

/-- A wall clock inside the default trading-hours window. -/
def exClock : Clock := { time := 10, hour := 12 }

/-- C3: once the kill switch is active — whether latched explicitly or by
the drawdown rule observing a drawdown at or above the threshold — an
`evaluate_signal` call yields decision kill_switched and leaves the switch
active (so every subsequent call is again non-approved), until the explicit
reset operation clears the flag. -/
theorem kill_switch_latched (s : EngineState) (sig : PredictorSignal) (clk : Clock) :
    ((s.kill_switch_active = true ∨
        s.config.drawdown_kill_switch_pct ≤ s.spend_tracker.get_drawdown) →
      (evaluate_signal s sig clk).2.decision = .KILL_SWITCHED ∧
      (evaluate_signal s sig clk).1.kill_switch_active = true) ∧
    (reset_kill_switch s).kill_switch_active = false := by
  refine ⟨fun h => ⟨?_, ?_⟩, rfl⟩
  · rw [evaluate_signal_decision, decideDecision_killSwitched_iff,
      evaluate_signal_rules]
    rcases h with h | h
    · simp [anyKillSwitchFailed, check_kill_switch, h]
    · have hd : decide (s.spend_tracker.get_drawdown <
          s.config.drawdown_kill_switch_pct) = false :=
        decide_eq_false (not_lt.mpr h)
      simp [anyKillSwitchFailed, check_kill_switch, check_drawdown, hd]
  · rw [(evaluate_signal_state s sig clk).2.2]
    rcases h with h | h
    · simp [check_drawdown, h]
    · have hd : decide (s.spend_tracker.get_drawdown <
          s.config.drawdown_kill_switch_pct) = false :=
        decide_eq_false (not_lt.mpr h)
      simp [check_drawdown, hd]

/-- C3 witness: a 25% drawdown against the default 20% threshold forces
decision kill_switched and latches the switch. -/
theorem kill_switch_latched_witness :
    exDrawdownState.config.drawdown_kill_switch_pct ≤
      exDrawdownState.spend_tracker.get_drawdown ∧
    ((evaluate_signal exDrawdownState exGoodSignal exClock).2.decision =
        .KILL_SWITCHED ∧
      (evaluate_signal exDrawdownState exGoodSignal exClock).1.kill_switch_active =
        true) :=
  ⟨by norm_num [exDrawdownState, defaultConfig, SpendTracker.get_drawdown],
   (kill_switch_latched exDrawdownState exGoodSignal exClock).1
     (Or.inr (by norm_num [exDrawdownState, defaultConfig, SpendTracker.get_drawdown]))⟩

/-- C7 (amended): evaluating the same signal twice at the same wall clock
against unchanged financial state yields identical rule evaluations,
provided the first call did not newly latch the kill switch (the financial
state itself is never touched by evaluation). -/
theorem evaluate_signal_idempotent (s : EngineState) (sig : PredictorSignal)
    (clk : Clock)
    (h : (evaluate_signal s sig clk).1.kill_switch_active = s.kill_switch_active) :
    (evaluate_signal (evaluate_signal s sig clk).1 sig clk).2.rules_evaluated =
      (evaluate_signal s sig clk).2.rules_evaluated := by
  rw [evaluate_signal_rules, evaluate_signal_rules,
    (evaluate_signal_state s sig clk).1, (evaluate_signal_state s sig clk).2.1, h]

/-- C7 witness: from the freshly initialised engine (no drawdown) the two
successive evaluations produce the same rule list. -/
theorem evaluate_signal_idempotent_witness :
    (evaluate_signal (EngineState.init defaultConfig) exGoodSignal exClock).1.kill_switch_active =
      (EngineState.init defaultConfig).kill_switch_active ∧
    (evaluate_signal
        (evaluate_signal (EngineState.init defaultConfig) exGoodSignal exClock).1
        exGoodSignal exClock).2.rules_evaluated =
      (evaluate_signal (EngineState.init defaultConfig) exGoodSignal exClock).2.rules_evaluated :=
  have h : (evaluate_signal (EngineState.init defaultConfig) exGoodSignal exClock).1.kill_switch_active =
      (EngineState.init defaultConfig).kill_switch_active := by
    rw [(evaluate_signal_state _ _ _).2.2]
    norm_num [EngineState.init, defaultConfig, check_drawdown, SpendTracker.get_drawdown]
  ⟨h, evaluate_signal_idempotent _ _ _ h⟩

/-- C7 counterexample to the claim as stated: with a 25% drawdown and the
kill switch not yet latched, the first evaluation latches the switch, so
the second evaluation's kill-switch rule fails where the first one passed —
the two rule lists differ although the financial state never changed. -/
theorem evaluate_signal_idempotent_counterexample :
    (evaluate_signal (evaluate_signal exDrawdownState exGoodSignal exClock).1
        exGoodSignal exClock).2.rules_evaluated ≠
      (evaluate_signal exDrawdownState exGoodSignal exClock).2.rules_evaluated ∧
    (evaluate_signal exDrawdownState exGoodSignal exClock).1.spend_tracker =
      exDrawdownState.spend_tracker := by
  constructor
  · norm_num [evaluate_signal_rules, (evaluate_signal_state _ _ _).1,
      (evaluate_signal_state _ _ _).2.1, (evaluate_signal_state _ _ _).2.2,
      check_kill_switch, check_drawdown, exDrawdownState, defaultConfig,
      SpendTracker.get_drawdown]
  · exact (evaluate_signal_state _ _ _).2.1

/-- C10: a consecutive-loss count at or above the limit forces decision
kill_switched (the rule is KILL_SWITCH-typed), yet does not latch the
kill-switch flag; and once the counter is below the limit again, a state
whose other checks all pass is approved with no reset needed. -/
theorem consecutive_losses_kill_switch (s : EngineState) (sig : PredictorSignal)
    (clk : Clock) :
    (s.config.consecutive_loss_limit ≤ s.spend_tracker.consecutive_losses →
      (evaluate_signal s sig clk).2.decision = .KILL_SWITCHED) ∧
    (s.kill_switch_active = false →
      s.spend_tracker.get_drawdown < s.config.drawdown_kill_switch_pct →
      (evaluate_signal s sig clk).1.kill_switch_active = false) ∧
    (s.kill_switch_active = false →
      s.spend_tracker.get_drawdown < s.config.drawdown_kill_switch_pct →
      s.spend_tracker.consecutive_losses < s.config.consecutive_loss_limit →
      sig.entry_quality ∈ s.config.allowed_signal_strengths →
      s.config.min_ars_score ≤ sig.ars_score →
      s.config.min_conviction ≤ sig.conviction →
      (derive_order s.config s.spend_tracker sig).total_cost_cents ≤
        s.config.max_per_trade_cents →
      s.spend_tracker.get_daily_spend clk.time +
          (derive_order s.config s.spend_tracker sig).total_cost_cents ≤
        s.config.max_daily_spend_cents →
      s.spend_tracker.get_weekly_spend clk.time +
          (derive_order s.config s.spend_tracker sig).total_cost_cents ≤
        s.config.max_weekly_spend_cents →
      (derive_order s.config s.spend_tracker sig).total_cost_cents ≤
        ratTrunc (s.spend_tracker.current_balance * 100) →
      s.config.trading_hours_start ≤ clk.hour →
      clk.hour < s.config.trading_hours_end →
      (evaluate_signal s sig clk).2.decision = .APPROVED) := by
  refine ⟨fun h => ?_, fun hks hdd => ?_, ?_⟩
  · rw [evaluate_signal_decision, decideDecision_killSwitched_iff,
      evaluate_signal_rules]
    have hl : decide (s.spend_tracker.consecutive_losses <
        s.config.consecutive_loss_limit) = false :=
      decide_eq_false (Nat.not_lt.mpr h)
    simp [anyKillSwitchFailed, check_kill_switch, check_drawdown,
      check_consecutive_losses, hl]
  · rw [(evaluate_signal_state s sig clk).2.2]
    simp [check_drawdown, hks, hdd]
  · intro hks hdd hl hq ha hc h7 h8 h9 h10 h11 h12
    rw [evaluate_signal_decision, decideDecision_approved_iff,
      evaluate_signal_rules]
    constructor
    · simp [anyKillSwitchFailed, check_kill_switch, check_drawdown,
        check_consecutive_losses, check_entry_quality, check_ars_score,
        check_conviction, check_per_trade_limit, check_daily_limit,
        check_weekly_limit, check_balance, check_trading_hours,
        hks, hdd, hl, hq, ha, hc, h7, h8, h9, h10, h11, h12]
    · simp [anyFailed, check_kill_switch, check_drawdown,
        check_consecutive_losses, check_entry_quality, check_ars_score,
        check_conviction, check_per_trade_limit, check_daily_limit,
        check_weekly_limit, check_balance, check_trading_hours,
        hks, hdd, hl, hq, ha, hc, h7, h8, h9, h10, h11, h12]

/-- Fresh default engine state whose consecutive-loss counter sits at the
default limit of five. -/
def exLossState : EngineState :=
  { EngineState.init defaultConfig with
      spend_tracker :=
        { (EngineState.init defaultConfig).spend_tracker with
            consecutive_losses := 5 } }

/-- C10 witness: at five consecutive losses (limit five) the decision is
kill_switched but the kill switch stays unlatched, and with the counter at
zero the same signal is approved with no reset in between. -/
theorem consecutive_losses_kill_switch_witness :
    exLossState.config.consecutive_loss_limit ≤
      exLossState.spend_tracker.consecutive_losses ∧
    (evaluate_signal exLossState exGoodSignal exClock).2.decision = .KILL_SWITCHED ∧
    (evaluate_signal exLossState exGoodSignal exClock).1.kill_switch_active = false ∧
    (evaluate_signal (EngineState.init defaultConfig) exGoodSignal exClock).2.decision =
      .APPROVED :=
  ⟨by norm_num [exLossState, EngineState.init, defaultConfig],
   (consecutive_losses_kill_switch exLossState exGoodSignal exClock).1
     (by norm_num [exLossState, EngineState.init, defaultConfig]),
   (consecutive_losses_kill_switch exLossState exGoodSignal exClock).2.1 rfl
     (by norm_num [exLossState, EngineState.init, defaultConfig,
        SpendTracker.get_drawdown]),
   (consecutive_losses_kill_switch (EngineState.init defaultConfig) exGoodSignal
       exClock).2.2 rfl
     (by norm_num [EngineState.init, defaultConfig, SpendTracker.get_drawdown])
     (by norm_num [EngineState.init, defaultConfig])
     (by simp [EngineState.init, defaultConfig, exGoodSignal])
     (by norm_num [EngineState.init, defaultConfig, exGoodSignal])
     (by norm_num [EngineState.init, defaultConfig, exGoodSignal])
     (by norm_num [derive_order, ratTrunc, EngineState.init, defaultConfig, exGoodSignal])
     (by norm_num [derive_order, ratTrunc, EngineState.init, defaultConfig, exGoodSignal,
        SpendTracker.get_daily_spend, SpendTracker.get_spend_since])
     (by norm_num [derive_order, ratTrunc, EngineState.init, defaultConfig, exGoodSignal,
        SpendTracker.get_weekly_spend, SpendTracker.get_spend_since])
     (by norm_num [derive_order, ratTrunc, EngineState.init, defaultConfig, exGoodSignal])
     (by norm_num [EngineState.init, defaultConfig, exClock])
     (by norm_num [EngineState.init, defaultConfig, exClock])⟩

/-! ## C6 -/

/-- C6 (amended): whenever an evaluation carries an order request, its
price in cents is the truncation of `current_price * 100` (not the nearest
integer), its contract count is the affordable count at the one-cent-floored
price clamped to `[1, max_position_contracts]`, and its total cost is the
product of the two. -/
theorem order_request_derivation (s : EngineState) (sig : PredictorSignal)
    (clk : Clock) (o : OrderRequest)
    (h : (evaluate_signal s sig clk).2.order_request = some o) :
    o.price_cents = ratTrunc (sig.current_price * 100) ∧
    o.count = max 1 (min
      (ratTrunc (sig.recommended_size * s.spend_tracker.current_balance /
        max sig.current_price (1/100)))
      s.config.max_position_contracts) ∧
    o.total_cost_cents = o.price_cents * o.count := by
  rw [evaluate_signal_order] at h
  by_cases hd : (evaluate_signal s sig clk).2.decision = .APPROVED
  · rw [if_pos hd, Option.some_inj] at h
    subst h
    exact ⟨rfl, rfl, rfl⟩
  · rw [if_neg hd] at h
    exact absurd h (by simp)

/-- C6 witness: the approved evaluation of `exGoodSignal` carries an order
request, and its fields satisfy the derivation formulas. -/
theorem order_request_derivation_witness :
    (evaluate_signal (EngineState.init defaultConfig) exGoodSignal exClock).2.order_request =
      some (derive_order defaultConfig
        (EngineState.init defaultConfig).spend_tracker exGoodSignal) ∧
    ((derive_order defaultConfig
        (EngineState.init defaultConfig).spend_tracker exGoodSignal).price_cents =
      ratTrunc (exGoodSignal.current_price * 100) ∧
    (derive_order defaultConfig
        (EngineState.init defaultConfig).spend_tracker exGoodSignal).count =
      max 1 (min
        (ratTrunc (exGoodSignal.recommended_size *
          (EngineState.init defaultConfig).spend_tracker.current_balance /
          max exGoodSignal.current_price (1/100)))
        (EngineState.init defaultConfig).config.max_position_contracts) ∧
    (derive_order defaultConfig
        (EngineState.init defaultConfig).spend_tracker exGoodSignal).total_cost_cents =
      (derive_order defaultConfig
        (EngineState.init defaultConfig).spend_tracker exGoodSignal).price_cents *
      (derive_order defaultConfig
        (EngineState.init defaultConfig).spend_tracker exGoodSignal).count) :=
  have h : (evaluate_signal (EngineState.init defaultConfig) exGoodSignal
      exClock).2.order_request =
      some (derive_order defaultConfig
        (EngineState.init defaultConfig).spend_tracker exGoodSignal) := by
    rw [evaluate_signal_order]
    norm_num [evaluate_signal_rules, evaluate_signal_decision, decideDecision,
      anyKillSwitchFailed, anyFailed, check_kill_switch, check_drawdown,
      check_consecutive_losses, check_entry_quality, check_ars_score,
      check_conviction, check_per_trade_limit, check_daily_limit,
      check_weekly_limit, check_balance, check_trading_hours,
      SpendTracker.get_drawdown, SpendTracker.get_daily_spend,
      SpendTracker.get_weekly_spend, SpendTracker.get_spend_since,
      derive_order, ratTrunc, EngineState.init, defaultConfig, exGoodSignal, exClock]
  ⟨h, order_request_derivation _ _ _ _ h⟩

/-- A signal identical to `exGoodSignal` except that its current price of
0.555 makes `current_price * 100` land on a half cent. -/
def exHalfCentSignal : PredictorSignal :=
  { exGoodSignal with signal_id := "sig_055", current_price := 111/200 }

/-- C6 counterexample to the claim as stated: at current price 0.555 the
evaluation's order request carries price 55 cents — the truncation of
55.5 — while rounding 55.5 as the claim states gives 56. -/
theorem order_request_derivation_counterexample :
    ((evaluate_signal (EngineState.init defaultConfig) exHalfCentSignal
        exClock).2.order_request.map OrderRequest.price_cents) = some 55 ∧
    round (exHalfCentSignal.current_price * 100) = 56 ∧
    (55 : ℤ) ≠ 56 := by
  refine ⟨?_, ?_, by norm_num⟩
  · rw [evaluate_signal_order]
    norm_num [evaluate_signal_rules, evaluate_signal_decision, decideDecision,
      anyKillSwitchFailed, anyFailed, check_kill_switch, check_drawdown,
      check_consecutive_losses, check_entry_quality, check_ars_score,
      check_conviction, check_per_trade_limit, check_daily_limit,
      check_weekly_limit, check_balance, check_trading_hours,
      SpendTracker.get_drawdown, SpendTracker.get_daily_spend,
      SpendTracker.get_weekly_spend, SpendTracker.get_spend_since,
      derive_order, ratTrunc, EngineState.init, defaultConfig, exHalfCentSignal,
      exGoodSignal, exClock]
  · norm_num [exHalfCentSignal, round_eq]

/-- C8 counterexample to the claim as stated: a kill-switched result is not
rejected with an error — the operation returns normally, its output is the
input state and result unchanged, and no execution is recorded (the
execution result stays `none` and the transaction ledger stays empty). -/
theorem execute_non_approved_counterexample :
    execute_approved_trade (EngineState.init defaultConfig)
      { decision := .KILL_SWITCHED, rules_evaluated := [], order_request := none,
        execution_result := none } 0 =
      (EngineState.init defaultConfig,
       { decision := .KILL_SWITCHED, rules_evaluated := [], order_request := none,
         execution_result := none }) ∧
    (EngineState.init defaultConfig).spend_tracker.transactions = [] := by
  constructor
  · simp [execute_approved_trade]
  · rfl

end Governance

namespace Stabilizer

/-! ## C4 -/

/-- `calculate_position_size` in closed form, by unfolding the lets:
a conviction-, regime- and drawdown-adjusted base size, capped by the
remaining exposure capacity and the maximum size, then floored at the
minimum size (the floor is applied last). -/
lemma calculate_position_size_eq (cfg : ARSConfig) (dd c e : ℚ)
    (r : MarketRegime) :
    calculate_position_size cfg dd c r e =
      max (min (cfg.base_position_size * (1 + (c - 1/2) * cfg.conviction_scaling) *
          cfg.regime_position_adjustments r *
          (if dd > cfg.max_daily_drawdown / 2 then
            max (1 - dd / cfg.max_total_drawdown) cfg.drawdown_reduction_rate
          else 1))
        (min (1 - e) cfg.max_position_size)) cfg.min_position_size := rfl

/-- C4 (amended): for every conviction, regime, drawdown and exposure, the
recommended size lies in `[min_position_size, max_position_size]` (given a
coherent band), and it respects the remaining exposure capacity
`1 - current_exposure` whenever that capacity is at least
`min_position_size` — the minimum-size floor is applied after the exposure
cap, so a capacity below the minimum size is overridden. -/
theorem position_size_bounds (cfg : ARSConfig) (dd c e : ℚ) (r : MarketRegime)
    (h : cfg.min_position_size ≤ cfg.max_position_size) :
    cfg.min_position_size ≤ calculate_position_size cfg dd c r e ∧
    calculate_position_size cfg dd c r e ≤ cfg.max_position_size ∧
    (cfg.min_position_size ≤ 1 - e →
      calculate_position_size cfg dd c r e ≤ 1 - e) := by
  rw [calculate_position_size_eq]
  refine ⟨le_max_right _ _, ?_, fun h' => ?_⟩
  · exact max_le ((min_le_right _ _).trans (min_le_right _ _)) h
  · exact max_le ((min_le_right _ _).trans (min_le_left _ _)) h'

/-- C4 witness: with the default configuration, no drawdown, conviction
one half, calm regime and zero exposure, the recommended size is within
the band and the capacity. -/
theorem position_size_bounds_witness :
    defaultARSConfig.min_position_size ≤ defaultARSConfig.max_position_size ∧
    defaultARSConfig.min_position_size ≤ 1 - 0 ∧
    (defaultARSConfig.min_position_size ≤
        calculate_position_size defaultARSConfig 0 (1/2) .CALM 0 ∧
      calculate_position_size defaultARSConfig 0 (1/2) .CALM 0 ≤
        defaultARSConfig.max_position_size ∧
      calculate_position_size defaultARSConfig 0 (1/2) .CALM 0 ≤ 1 - 0) :=
  have h : defaultARSConfig.min_position_size ≤ defaultARSConfig.max_position_size := by
    norm_num [defaultARSConfig]
  have h' : defaultARSConfig.min_position_size ≤ 1 - 0 := by
    norm_num [defaultARSConfig]
  ⟨h, h',
    ⟨(position_size_bounds defaultARSConfig 0 (1/2) 0 .CALM h).1,
     (position_size_bounds defaultARSConfig 0 (1/2) 0 .CALM h).2.1,
     (position_size_bounds defaultARSConfig 0 (1/2) 0 .CALM h).2.2 h'⟩⟩

/-- C4 counterexample to the claim as stated: at current exposure 0.995 the
remaining capacity is 0.005, but the minimum-size floor (0.01) is applied
after the capacity cap, so the recommended size 0.01 exceeds the remaining
capacity. -/
theorem position_size_exposure_counterexample :
    calculate_position_size defaultARSConfig 0 (1/2) .CALM (199/200) = 1/100 ∧
    ¬(calculate_position_size defaultARSConfig 0 (1/2) .CALM (199/200) ≤
        1 - 199/200) := by
  constructor <;>
    norm_num [calculate_position_size_eq, defaultARSConfig, min_def, max_def]

/-! ## C9 -/

/-- The regime classification exactly as claim C9 states it: any series of
at least ten points is classified from the volatility, trend and choppiness
of the whole series; fewer than ten points give CALM.  Written from the
claim for comparison with `detect_market_regime`. -/
def claimRegimeSpec (cfg : ARSConfig) (prices : List ℚ) : MarketRegime :=
  if prices.length < 10 then .CALM
  else
    if volatileCond cfg (returnsOf prices) then .VOLATILE
    else if trendStrengthOf prices > 1/10 ∧
        choppinessOf (returnsOf prices) < 3/10 then .TRENDING
    else if choppinessOf (returnsOf prices) > 3/5 then .CHOPPY
    else .CALM

/-- C9 (amended): series shorter than `volatility_lookback_periods`
(default 20, not 10) are CALM; for longer series the classification is
computed over the last `volatility_lookback_periods` prices — VOLATILE iff
the return volatility exceeds the threshold, else TRENDING iff trend
magnitude exceeds 0.1 with choppiness below 0.3, else CHOPPY iff
choppiness exceeds 0.6, else CALM. -/
theorem regime_detection_characterization (cfg : ARSConfig) (prices : List ℚ) :
    (prices.length < cfg.volatility_lookback_periods →
      detect_market_regime cfg prices = .CALM) ∧
    (cfg.volatility_lookback_periods ≤ prices.length →
      ((detect_market_regime cfg prices = .VOLATILE ↔
          volatileCond cfg (returnsOf (windowOf cfg prices))) ∧
       (detect_market_regime cfg prices = .TRENDING ↔
          (¬volatileCond cfg (returnsOf (windowOf cfg prices)) ∧
           trendStrengthOf (windowOf cfg prices) > 1/10 ∧
           choppinessOf (returnsOf (windowOf cfg prices)) < 3/10)) ∧
       (detect_market_regime cfg prices = .CHOPPY ↔
          (¬volatileCond cfg (returnsOf (windowOf cfg prices)) ∧
           ¬(trendStrengthOf (windowOf cfg prices) > 1/10 ∧
             choppinessOf (returnsOf (windowOf cfg prices)) < 3/10) ∧
           choppinessOf (returnsOf (windowOf cfg prices)) > 3/5)) ∧
       (detect_market_regime cfg prices = .CALM ↔
          (¬volatileCond cfg (returnsOf (windowOf cfg prices)) ∧
           ¬(trendStrengthOf (windowOf cfg prices) > 1/10 ∧
             choppinessOf (returnsOf (windowOf cfg prices)) < 3/10) ∧
           ¬(choppinessOf (returnsOf (windowOf cfg prices)) > 3/5))))) := by
  constructor
  · intro h
    simp only [detect_market_regime, if_pos h]
  · intro h
    simp only [detect_market_regime, if_neg (not_lt.mpr h)]
    split_ifs with h1 h2 h3 <;> refine ⟨?_, ?_, ?_, ?_⟩ <;> simp_all

/-- C9 witness: a one-point series is CALM, and a twenty-point constant
series (zero volatility, zero trend, zero choppiness) is classified CALM
through the characterization. -/
theorem regime_detection_characterization_witness :
    (([ (1:ℚ) ]).length < defaultARSConfig.volatility_lookback_periods ∧
      detect_market_regime defaultARSConfig [(1:ℚ)] = .CALM) ∧
    (defaultARSConfig.volatility_lookback_periods ≤
        (List.replicate 20 (1:ℚ)).length ∧
      detect_market_regime defaultARSConfig (List.replicate 20 (1:ℚ)) = .CALM) :=
  have h1 : ([ (1:ℚ) ]).length < defaultARSConfig.volatility_lookback_periods := by
    norm_num [defaultARSConfig]
  have h2 : defaultARSConfig.volatility_lookback_periods ≤
      (List.replicate 20 (1:ℚ)).length := by
    norm_num [defaultARSConfig]
  ⟨⟨h1, (regime_detection_characterization defaultARSConfig [(1:ℚ)]).1 h1⟩,
   ⟨h2,
    ((regime_detection_characterization defaultARSConfig
        (List.replicate 20 (1:ℚ))).2 h2).2.2.2.mpr
      (by norm_num [volatileCond, variance, mean, returnsOf, windowOf,
        trendStrengthOf, choppinessOf, directionChanges, sign,
        defaultARSConfig, List.replicate, List.zipWith])⟩⟩

/-- C9 counterexample to the claim as stated: the alternating ten-point
series 1,2,1,2,… has return volatility far above the default threshold
0.3, so the claim classifies it VOLATILE, but the code returns CALM —
`detect_market_regime` requires `volatility_lookback_periods` = 20 points,
not 10. -/
theorem regime_detection_counterexample :
    ([1, 2, 1, 2, 1, 2, 1, 2, 1, 2] : List ℚ).length = 10 ∧
    claimRegimeSpec defaultARSConfig [1, 2, 1, 2, 1, 2, 1, 2, 1, 2] = .VOLATILE ∧
    detect_market_regime defaultARSConfig [1, 2, 1, 2, 1, 2, 1, 2, 1, 2] = .CALM := by
  refine ⟨by norm_num, ?_, by norm_num [detect_market_regime, defaultARSConfig]⟩
  norm_num [claimRegimeSpec, volatileCond, variance, mean, returnsOf,
    defaultARSConfig, List.zipWith]

end Stabilizer

namespace Signals

/-! ## C5 -/

/-- Inverting a successful `signalOfGroup`: the emitted signal's conviction
is the group size over the participant total, its trader list is the
group's wallets, and the group is nonempty. -/
lemma signalOfGroup_some (total mt : ℕ) (mc : ℚ) (k : String × String)
    (hs : List Holding) (sig : Signal)
    (h : signalOfGroup total mt mc k hs = some sig) :
    sig.conviction = (hs.length : ℚ) / (total : ℚ) ∧
    sig.num_traders = hs.length ∧
    sig.traders = hs.map Holding.wallet ∧
    hs ≠ [] := by
  cases hs with
  | nil => simp [signalOfGroup] at h
  | cons h0 tl =>
    unfold signalOfGroup at h
    dsimp only at h
    by_cases hc1 : (h0 :: tl).length < mt
    · rw [if_pos hc1] at h
      exact absurd h (by simp)
    · rw [if_neg hc1] at h
      by_cases hc2 : ((h0 :: tl).length : ℚ) / (total : ℚ) < mc
      · rw [if_pos hc2] at h
        exact absurd h (by simp)
      · rw [if_neg hc2] at h
        rw [Option.some_inj] at h
        subst h
        exact ⟨rfl, rfl, rfl, by simp⟩

/-- If the keys of a list are pairwise distinct, at most one element maps
to any given key. -/
lemma length_filter_key_le_one {α β : Type} [DecidableEq β] (f : α → β)
    (l : List α) (hl : (l.map f).Nodup) (b : β) :
    (l.filter (fun a => f a = b)).length ≤ 1 := by
  induction l with
  | nil => simp
  | cons x xs ih =>
    rw [List.map_cons, List.nodup_cons] at hl
    obtain ⟨hx, hxs⟩ := hl
    by_cases hfx : f x = b
    · have hnil : xs.filter (fun a => decide (f a = b)) = [] := by
        rw [List.filter_eq_nil_iff]
        intro a ha
        simp only [decide_eq_true_eq]
        intro hab
        exact hx (by rw [hfx, ← hab]; exact List.mem_map_of_mem f ha)
      simp [List.filter_cons, hfx, hnil]
    · simpa [List.filter_cons, hfx] using ih hxs

/-- The wallets of a group's holdings form a sublist of the wallets of the
positions mapping, provided no wallet holds two positions with the same
`(market_slug, outcome)` key. -/
lemma filtered_wallets_sublist (positions : List (String × List Position))
    (scored : List String) (k : String × String)
    (hdup : ∀ wp ∈ positions,
      (wp.2.map (fun p => (p.market_slug, p.outcome))).Nodup) :
    List.Sublist
      (((holdingsOf positions scored).filter (fun h => h.key = k)).map
        Holding.wallet)
      (positions.map Prod.fst) := by
  induction positions with
  | nil => simp [holdingsOf]
  | cons wp rest ih =>
    obtain ⟨w, ps⟩ := wp
    have ihrest := ih (fun q hq => hdup q (List.mem_cons_of_mem _ hq))
    rw [holdingsOf, List.flatMap_cons, ← holdingsOf]
    by_cases hw : w ∈ scored
    · rw [if_pos hw, List.filter_append, List.map_append]
      have hcomm : ((ps.map (fun p =>
            (⟨(p.market_slug, p.outcome), w, p⟩ : Holding))).filter
              (fun h => h.key = k)) =
          (ps.filter (fun p => (p.market_slug, p.outcome) = k)).map
            (fun p => (⟨(p.market_slug, p.outcome), w, p⟩ : Holding)) := by
        rw [List.filter_map]
        rfl
      have hlen := length_filter_key_le_one
        (fun p => (p.market_slug, p.outcome)) ps (hdup (w, ps) (List.mem_cons_self _ _)) k
      rw [hcomm]
      cases hfl : ps.filter (fun p => (p.market_slug, p.outcome) = k) with
      | nil => simpa [hfl] using ihrest.cons w
      | cons p0 tl =>
        rw [hfl] at hlen
        have htl : tl = [] := by
          rw [List.length_cons] at hlen
          exact List.eq_nil_of_length_eq_zero (by omega)
        subst htl
        simpa using ihrest.cons₂ w
    · rw [if_neg hw]
      simpa using ihrest.cons w

/-- C5 (amended): when the positions mapping has pairwise-distinct wallets
each holding at most one position per `(market, outcome)` — as a Python
dict of per-market positions does — every signal emitted by
`aggregate_signals` counts distinct participants, and its conviction is
exactly that participant count over the total number of participants in
the mapping, a value in `[0, 1]`. -/
theorem aggregator_conviction (positions : List (String × List Position))
    (scored : List String) (min_traders : ℕ) (min_conviction : ℚ)
    (hkeys : (positions.map Prod.fst).Nodup)
    (hdup : ∀ wp ∈ positions,
      (wp.2.map (fun p => (p.market_slug, p.outcome))).Nodup) :
    ∀ sig ∈ aggregate_signals positions scored min_traders min_conviction,
      sig.conviction = (sig.num_traders : ℚ) / (positions.length : ℚ) ∧
      sig.num_traders = sig.traders.length ∧
      sig.traders.Nodup ∧
      1 ≤ sig.num_traders ∧
      sig.num_traders ≤ positions.length ∧
      0 ≤ sig.conviction ∧ sig.conviction ≤ 1 := by
  intro sig hsig
  simp only [aggregate_signals, List.mem_mergeSort] at hsig
  obtain ⟨k, hk, hsome⟩ := List.mem_filterMap.mp hsig
  obtain ⟨hconv, hnum, htraders, hne⟩ :=
    signalOfGroup_some _ _ _ _ _ _ hsome
  have hsub := filtered_wallets_sublist positions scored k hdup
  have hnodup : sig.traders.Nodup := by
    rw [htraders]
    exact (hkeys.sublist hsub)
  have hlensub : sig.num_traders ≤ positions.length := by
    have := hsub.length_le
    rw [List.length_map, List.length_map] at this
    rw [hnum]
    exact this
  have hpos : 1 ≤ sig.num_traders := by
    rw [hnum]
    exact List.length_pos.mpr hne
  have htotpos : (0 : ℚ) < (positions.length : ℚ) := by
    exact_mod_cast lt_of_lt_of_le hpos hlensub
  refine ⟨by rw [hconv, hnum], by rw [hnum, htraders, List.length_map], hnodup,
    hpos, hlensub, ?_, ?_⟩
  · rw [hconv]
    exact div_nonneg (Nat.cast_nonneg _) (Nat.cast_nonneg _)
  · rw [hconv, div_le_one htotpos]
    have hle : (List.filter (fun h => h.key = k)
        (holdingsOf positions scored)).length ≤ positions.length := by
      rw [← hnum]
      exact hlensub
    exact_mod_cast hle

/-- Two distinct participants holding the same `(market, outcome)`. -/
def exPositionA : Position :=
  { market_slug := "m", market_title := "M?", outcome := "yes",
    size := 1, avg_price := 1/2, current_price := 3/5, current_value := 3/5 }

/-- The well-formed two-participant positions mapping used by the C5
witness. -/
def exPositions : List (String × List Position) :=
  [("w1", [exPositionA]), ("w2", [exPositionA])]

/-- C5 witness: on a two-participant mapping (distinct wallets, one
position each) the hypotheses hold, so every emitted signal's conviction is
its participant count over two, within `[0, 1]`. -/
theorem aggregator_conviction_witness :
    (exPositions.map Prod.fst).Nodup ∧
    (∀ wp ∈ exPositions,
      (wp.2.map (fun p => (p.market_slug, p.outcome))).Nodup) ∧
    (∀ sig ∈ aggregate_signals exPositions ["w1", "w2"] 2 (1/10),
      sig.conviction = (sig.num_traders : ℚ) / (exPositions.length : ℚ) ∧
      sig.num_traders = sig.traders.length ∧
      sig.traders.Nodup ∧
      1 ≤ sig.num_traders ∧
      sig.num_traders ≤ exPositions.length ∧
      0 ≤ sig.conviction ∧ sig.conviction ≤ 1) :=
  have h1 : (exPositions.map Prod.fst).Nodup := by
    simp [exPositions]
  have h2 : ∀ wp ∈ exPositions,
      (wp.2.map (fun p => (p.market_slug, p.outcome))).Nodup := by
    intro wp hwp
    simp only [exPositions, List.mem_cons, List.not_mem_nil, or_false] at hwp
    rcases hwp with h | h <;> subst h <;> simp
  ⟨h1, h2, aggregator_conviction exPositions ["w1", "w2"] 2 (1/10) h1 h2⟩

/-- One participant holding the same `(market, outcome)` twice. -/
def exDupPosition : Position :=
  { market_slug := "m", market_title := "M?", outcome := "yes",
    size := 1, avg_price := 1/2, current_price := 1/2, current_value := 1 }

/-- C5 counterexample to the claim as stated: a single participant whose
position list repeats one `(market, outcome)` yields a signal whose
conviction is 2 — the code counts position entries, not distinct
participants, so the conviction is neither the participant fraction nor
within `[0, 1]`. -/
theorem aggregator_conviction_counterexample :
    ∃ sig ∈ aggregate_signals [("w", [exDupPosition, exDupPosition])] ["w"]
        2 (1/10), 1 < sig.conviction := by
  simp only [aggregate_signals, List.mem_mergeSort]
  norm_num [holdingsOf, dedupKeys, signalOfGroup, exDupPosition, List.foldl,
    List.filterMap, List.filter, List.flatMap]

end Signals
